import Mathlib

/-!
Verification of the KanCut ARP-spoofing application against its
natural-language specification.

The frontend TypeScript (error handler, API wrappers, type definitions) is
embedded directly from the source.  The Rust backend core (frame codec,
scanner, session engine and registry) is not part of the available sources;
those components are modelled from the specification, as marked on each
definition.

Machine integers are modelled as Nat; raw frames are lists of byte values;
JavaScript strings are Lean strings, with the JavaScript string operations
(includes, indexOf, substring, trim, toLowerCase) given executable
definitions on the underlying character lists.
-/

namespace KanCut

/-! ### JavaScript string primitives -/

/-- Whether the first list is a leading segment of the second. -/
def isLeadOf : List Char → List Char → Bool
  | [], _ => true
  | _ :: _, [] => false
  | c :: cs, d :: ds => c == d && isLeadOf cs ds

/-- Whether the pattern occurs as a contiguous segment (JavaScript
String.prototype.includes; an empty pattern always matches). -/
def hasSegment (pat : List Char) : List Char → Bool
  | [] => pat.isEmpty
  | c :: cs => isLeadOf pat (c :: cs) || hasSegment pat cs

/-- JavaScript s.includes(pat). -/
def jsIncludes (s pat : String) : Bool :=
  hasSegment pat.data s.data

/-- Index of the first occurrence of the pattern, counting from the given
offset, or -1 when absent. -/
def segIdxAux (pat : List Char) : List Char → Nat → Int
  | [], i => if pat.isEmpty then (i : Int) else -1
  | c :: cs, i => if isLeadOf pat (c :: cs) then (i : Int) else segIdxAux pat cs (i + 1)

/-- JavaScript s.indexOf(pat): position of the first occurrence or -1. -/
def jsIndexOf (s pat : String) : Int :=
  segIdxAux pat.data s.data 0

/-- Characters removed by JavaScript String.prototype.trim. -/
def isJsSpace (c : Char) : Bool :=
  c == ' ' || c == '\t' || c == '\n' || c == '\r'

/-- JavaScript s.trim(). -/
def jsTrim (s : String) : String :=
  ⟨((s.data.dropWhile isJsSpace).reverse.dropWhile isJsSpace).reverse⟩

/-- JavaScript s.substring(i): the suffix starting at index i. -/
def jsSubstringFrom (s : String) (i : Nat) : String :=
  ⟨s.data.drop i⟩

/-- JavaScript s.substring(0, j): the first j characters. -/
def jsSubstringTo (s : String) (j : Nat) : String :=
  ⟨s.data.take j⟩

/-- ASCII lower-casing of one character (the fragment of
String.prototype.toLowerCase exercised by the sources). -/
def charLower (c : Char) : Char :=
  if 65 ≤ c.toNat ∧ c.toNat ≤ 90 then Char.ofNat (c.toNat + 32) else c

/-- JavaScript s.toLowerCase() on ASCII data. -/
def jsToLower (s : String) : String :=
  ⟨s.data.map charLower⟩

/-! ### Error taxonomy and backend-error parsing

Embedded from src/unnamed/part_002 (the frontend error handler).
The originalError field of the TypeScript AppError interface is an opaque
passthrough of arbitrary JavaScript data and is not modelled; the ambient
Date.now() timestamp is threaded as an explicit argument. -/

/-- The machine-readable error kinds of the frontend taxonomy. -/
inductive ErrorType where
  | NETWORK
  | INTERFACE
  | SPOOFING
  | SYSTEM
  | PERMISSION
  | CONFIGURATION
  | UNKNOWN
deriving DecidableEq

/-- A normalized application error: machine-readable kind, human-readable
message, optional details, creation timestamp. -/
structure AppError where
  type : ErrorType
  message : String
  details : Option String
  timestamp : Nat
deriving DecidableEq

/-- The marker-detection chain of parseBackendError: the first marker
contained in the message, in source order, decides the kind. -/
def detectErrorType (errorMsg : String) : ErrorType :=
  if jsIncludes errorMsg "NETWORK_ERROR" then .NETWORK
  else if jsIncludes errorMsg "INTERFACE_ERROR" then .INTERFACE
  else if jsIncludes errorMsg "SPOOFING_ERROR" then .SPOOFING
  else if jsIncludes errorMsg "SYSTEM_ERROR" then .SYSTEM
  else if jsIncludes errorMsg "PERMISSION_ERROR" then .PERMISSION
  else if jsIncludes errorMsg "CONFIG_ERROR" then .CONFIGURATION
  else .UNKNOWN

/-- Message/details split of parseBackendError: at the first colon when one
occurs at positive index, else the whole message with no details. -/
def splitColon (errorMsg : String) : String × Option String :=
  let colonIndex := jsIndexOf errorMsg ":"
  if colonIndex > 0 then
    (jsTrim (jsSubstringTo errorMsg colonIndex.toNat),
     some (jsTrim (jsSubstringFrom errorMsg (colonIndex.toNat + 1))))
  else (errorMsg, none)

/-- JavaScript s.startsWith(pat). -/
def jsStartsWith (s pat : String) : Bool :=
  isLeadOf pat.data s.data

/-- Error-code cleanup of parseBackendError: a leading bracketed tag is
stripped when the closing bracket occurs at positive index. -/
def stripCodeTag (message : String) : String :=
  let bracketIndex := jsIndexOf message "]"
  if jsStartsWith message "[" && bracketIndex > 0 then
    jsTrim (jsSubstringFrom message (bracketIndex.toNat + 1))
  else message

/-- parseBackendError from the frontend error handler: detects the kind from
the contained marker, splits message and details at the first colon, and
strips a leading error-code tag from the message. -/
def parseBackendError (errorMsg : String) (now : Nat) : AppError :=
  { type := detectErrorType errorMsg
    message := stripCodeTag (splitColon errorMsg).1
    details := (splitColon errorMsg).2
    timestamp := now }

/-- createUnknownError from the frontend error handler. -/
def createUnknownError (message : String) (details : Option String) (now : Nat) : AppError :=
  { type := .UNKNOWN, message := message, details := details, timestamp := now }

/-- The JavaScript values that can reach handleError: an object already
carrying type and message fields (an AppError), a string, an object with a
message but no type, any other truthy value (carrying its JSON
serialization), or a falsy non-string value such as null or undefined. -/
inductive JSValue where
  | vErr (e : AppError)
  | vStr (s : String)
  | vMsgObj (message : String)
  | vOtherTruthy (repr : String)
  | vFalsy
deriving DecidableEq

/-- handleError from the frontend error handler: an AppError-shaped object
is returned as is; a string is parsed as a backend error; an object with a
message becomes an UNKNOWN error with that message; anything else becomes
an UNKNOWN error with a generic message and, when truthy, its JSON
serialization as details. -/
def handleError (now : Nat) (err : JSValue) : AppError :=
  match err with
  | .vErr e => e
  | .vStr s => parseBackendError s now
  | .vMsgObj m => createUnknownError m none now
  | .vOtherTruthy r => createUnknownError "An unknown error occurred" (some r) now
  | .vFalsy => createUnknownError "An unknown error occurred" none now

/-! ### Frontend data records (embedded from src/unnamed/part_004) -/

/-- A network interface descriptor as exposed to the frontend. -/
structure CustomNetworkInterface where
  name : String
  description : String
  mac : String
  ips : List String
deriving DecidableEq

/-- A device discovered on the network. -/
structure Device where
  ip : String
  mac : String
  hostname : String
  vendor : String
deriving DecidableEq

/-! ### API wrappers (embedded from src/unnamed/part_001)

Each wrapper awaits the backend command and, on failure, rethrows the
handleError-normalized AppError.  The backend outcome is modelled as an
explicit Except value. -/

/-- scanNetwork from the frontend API: passes a successful device list
through and rethrows failures normalized by handleError. -/
def scanNetwork (now : Nat) (backend : Except JSValue (List Device)) :
    Except AppError (List Device) :=
  match backend with
  | .ok ds => .ok ds
  | .error e => .error (handleError now e)

/-- getInterfaces from the frontend API: passes a successful interface list
through and rethrows failures normalized by handleError. -/
def getInterfaces (now : Nat) (backend : Except JSValue (List CustomNetworkInterface)) :
    Except AppError (List CustomNetworkInterface) :=
  match backend with
  | .ok l => .ok l
  | .error e => .error (handleError now e)

/-- The permission-related message markers tested by checkPermissions. -/
def permissionIndicators (m : String) : Bool :=
  jsIncludes (jsToLower m) "permission" ||
  jsIncludes (jsToLower m) "access denied" ||
  jsIncludes (jsToLower m) "administrator"

/-- checkPermissions from the frontend API: uses getInterfaces as a probe
and reports false precisely when the failure message is permission-related;
every other outcome, success or failure, reports true. -/
def checkPermissions (now : Nat) (backend : Except JSValue (List CustomNetworkInterface)) :
    Bool :=
  match getInterfaces now backend with
  | .ok _ => true
  | .error thrown =>
    let appError := handleError now (.vErr thrown)
    if permissionIndicators appError.message then false else true

/-! ### Frame codec

Modelled from the spec: the Rust frame codec (spec section 4.1) is not among
the available sources; only its TypeScript callers are.  Bytes are Nat
values; a frame is a list of bytes. -/

/-- A 48-bit hardware address as six byte values. -/
structure MacAddr where
  b0 : Nat
  b1 : Nat
  b2 : Nat
  b3 : Nat
  b4 : Nat
  b5 : Nat
deriving DecidableEq

/-- An IPv4 address as four byte values. -/
structure Ipv4Addr where
  a0 : Nat
  a1 : Nat
  a2 : Nat
  a3 : Nat
deriving DecidableEq

/-- The fields decode returns on success: operation, sender MAC/IP,
target MAC/IP. -/
structure ParsedFrame where
  op : Nat
  senderMac : MacAddr
  senderIp : Ipv4Addr
  targetMac : MacAddr
  targetIp : Ipv4Addr
deriving DecidableEq

/-- Modelled from the spec: encode_arp (spec section 4.1) emits the 14-byte
Ethernet header (destination, source, EtherType 0x0806) followed by the
28-byte ARP payload (hardware type 1, protocol type 0x0800, address lengths
6 and 4, operation big-endian, sender MAC/IP, target MAC/IP); pure, fixed
42-byte output, no error path. -/
def encode_arp (op : Nat) (senderMac : MacAddr) (senderIp : Ipv4Addr)
    (targetMac : MacAddr) (targetIp : Ipv4Addr) (ethSrc ethDst : MacAddr) : List Nat :=
  [ethDst.b0, ethDst.b1, ethDst.b2, ethDst.b3, ethDst.b4, ethDst.b5,
   ethSrc.b0, ethSrc.b1, ethSrc.b2, ethSrc.b3, ethSrc.b4, ethSrc.b5,
   8, 6,
   0, 1, 8, 0, 6, 4,
   op / 256 % 256, op % 256,
   senderMac.b0, senderMac.b1, senderMac.b2, senderMac.b3, senderMac.b4, senderMac.b5,
   senderIp.a0, senderIp.a1, senderIp.a2, senderIp.a3,
   targetMac.b0, targetMac.b1, targetMac.b2, targetMac.b3, targetMac.b4, targetMac.b5,
   targetIp.a0, targetIp.a1, targetIp.a2, targetIp.a3]

/-- The type-field checks of decode: EtherType 0x0806 at offsets 12-13,
hardware type 1 at 14-15, protocol type 0x0800 at 16-17, hardware and
protocol address lengths 6 and 4 at 18-19. -/
def arpConstantsOk (bs : List Nat) : Bool :=
  bs.getD 12 0 == 8 && bs.getD 13 0 == 6 &&
  bs.getD 14 0 == 0 && bs.getD 15 0 == 1 &&
  bs.getD 16 0 == 8 && bs.getD 17 0 == 0 &&
  bs.getD 18 0 == 6 && bs.getD 19 0 == 4

/-- Modelled from the spec: decode (spec section 4.1) rejects frames shorter
than the minimum ARP-over-Ethernet length (42 bytes) and frames whose
EtherType, hardware-type, protocol-type or address-length fields do not
match the ARP-over-IPv4-over-Ethernet constants; on success it returns the
operation and the sender/target addresses. -/
def decode (bs : List Nat) : Option ParsedFrame :=
  if bs.length < 42 then none
  else if arpConstantsOk bs then
    some { op := bs.getD 20 0 * 256 + bs.getD 21 0
           senderMac := ⟨bs.getD 22 0, bs.getD 23 0, bs.getD 24 0,
                         bs.getD 25 0, bs.getD 26 0, bs.getD 27 0⟩
           senderIp := ⟨bs.getD 28 0, bs.getD 29 0, bs.getD 30 0, bs.getD 31 0⟩
           targetMac := ⟨bs.getD 32 0, bs.getD 33 0, bs.getD 34 0,
                         bs.getD 35 0, bs.getD 36 0, bs.getD 37 0⟩
           targetIp := ⟨bs.getD 38 0, bs.getD 39 0, bs.getD 40 0, bs.getD 41 0⟩ }
  else none

/-! ### Network scanner reply collection

Modelled from the spec: the Rust scanner (spec section 4.4) is not among the
available sources.  A reply is a (sender IP, sender MAC) pair; the sweep
deduplicates by IP keeping the first MAC observed, then enriches each
discovered device with best-effort hostname and vendor lookups, modelled as
oracles. -/

/-- Modelled from the spec: first-seen deduplication of collected replies by
sender IP; the accumulator holds the IPs already kept. -/
def dedupReplies (seen : List String) : List (String × String) → List (String × String)
  | [] => []
  | (ip, mac) :: rest =>
    if seen.contains ip then dedupReplies seen rest
    else (ip, mac) :: dedupReplies (ip :: seen) rest

/-- Modelled from the spec: the device list a scan produces from the replies
collected in its sweep window, one Device per distinct sender IP with
first-seen MAC, hostname and vendor filled by the enrichment oracles. -/
def scanDevices (hostnameOf vendorOf : String → String)
    (replies : List (String × String)) : List Device :=
  (dedupReplies [] replies).map fun p => ⟨p.1, p.2, hostnameOf p.1, vendorOf p.2⟩

/-! ### Spoofing session engine and registry

Modelled from the spec: the Rust session engine and registry (spec
section 4.6) are not among the available sources; only the TypeScript
command wrappers are.  The registry is a list of sessions; admission is the
atomic check-then-insert of the spec; a race between two starts is modelled as
the two serialized admission orders the atomic check permits. -/

/-- An active spoofing session record (field names from the frontend type
definitions in src/unnamed/part_004). -/
structure SpoofingSession where
  id : String
  target_ip : String
  gateway_ip : String
  interface : String
  is_active : Bool
  packets_sent : Nat
deriving DecidableEq

/-- Failure modes of a session start. -/
inductive StartError where
  | conflict (targetIp ifaceName : String)
  | resolutionFailed (ip : String)
deriving DecidableEq

/-- Whether some active session in the registry already claims the
(target IP, interface) pair. -/
def hasActiveConflict (r : List SpoofingSession) (tip iface : String) : Bool :=
  r.any fun s => s.is_active && s.target_ip == tip && s.interface == iface

/-- Modelled from the spec: atomic registry admission — the session is
inserted as active only if no active session already claims its
(target IP, interface) pair; otherwise a conflict error and the half-built
session is discarded. -/
def admitSession (r : List SpoofingSession) (s : SpoofingSession) :
    Except StartError (List SpoofingSession) :=
  if hasActiveConflict r s.target_ip s.interface then
    .error (.conflict s.target_ip s.interface)
  else .ok ({ s with is_active := true } :: r)

/-- Modelled from the spec: stop_spoofing — when a live session with the
given id exists its entry is removed and true is returned; an unknown or
already-stopped id returns false, never an error. -/
def stopSpoofing (r : List SpoofingSession) (sid : String) :
    List SpoofingSession × Bool :=
  if r.any fun s => s.id == sid && s.is_active then
    (r.filter fun s => !(s.id == sid), true)
  else (r, false)

/-- The registry operations whose interleavings generate the reachable
registry states. -/
inductive RegOp where
  | start (s : SpoofingSession)
  | stop (sid : String)

/-- One registry transition: a start that is admitted inserts the session, a
rejected start leaves the registry unchanged, a stop removes the entry. -/
def applyRegOp (r : List SpoofingSession) : RegOp → List SpoofingSession
  | .start s =>
    match admitSession r s with
    | .ok r' => r'
    | .error _ => r
  | .stop sid => (stopSpoofing r sid).1

/-- The registry state reached from the empty registry by a sequence of
start/stop operations. -/
def runRegOps (ops : List RegOp) : List SpoofingSession :=
  ops.foldl applyRegOp []

/-- No two active sessions share a (target IP, interface) pair. -/
def UniqueActivePairs (r : List SpoofingSession) : Prop :=
  r.Pairwise fun a b => a.is_active = true → b.is_active = true →
    ¬(a.target_ip = b.target_ip ∧ a.interface = b.interface)

/-- Modelled from the spec: start_spoofing for one target — resolve the
target and gateway MACs through the MAC resolver (an oracle mapping an IP to
its resolved MAC, none after the retry bound is exhausted); on resolution
failure no session is registered; on success the registry admits the session
atomically. -/
def startSession (resolveMac : String → Option String) (r : List SpoofingSession)
    (sid tip gw iface : String) : Except StartError (List SpoofingSession) :=
  match resolveMac tip with
  | none => .error (.resolutionFailed tip)
  | some _ =>
    match resolveMac gw with
    | none => .error (.resolutionFailed gw)
    | some _ =>
      admitSession r
        { id := sid, target_ip := tip, gateway_ip := gw, interface := iface,
          is_active := false, packets_sent := 0 }

/-- Outcome of the batch start: final registry, identifiers of the sessions
that reached Active, and the per-device failures reported separately. -/
structure BatchResult where
  registry : List SpoofingSession
  sessionIds : List String
  failures : List (String × StartError)
deriving DecidableEq

/-- Modelled from the spec: start_spoof_all — one independent start attempt
per device whose IP differs from the gateway IP; a failed attempt is
recorded in the failure list and does not stop the batch; the opaque
globally-unique session identifiers are modelled as an oracle assigning an
identifier to each device. -/
def startSpoofAll (resolveMac : String → Option String) (uuidOf : Device → String)
    (r : List SpoofingSession) (devices : List Device) (gatewayIp iface : String) :
    BatchResult :=
  match devices with
  | [] => ⟨r, [], []⟩
  | d :: ds =>
    if d.ip == gatewayIp then startSpoofAll resolveMac uuidOf r ds gatewayIp iface
    else
      match startSession resolveMac r (uuidOf d) d.ip gatewayIp iface with
      | .ok r' =>
        let rest := startSpoofAll resolveMac uuidOf r' ds gatewayIp iface
        ⟨rest.registry, uuidOf d :: rest.sessionIds, rest.failures⟩
      | .error e =>
        let rest := startSpoofAll resolveMac uuidOf r ds gatewayIp iface
        ⟨rest.registry, rest.sessionIds, (d.ip, e) :: rest.failures⟩

/-! ### Claim C1 -/

/-- Claim C1: for every valid ARP tuple (operation, sender MAC, sender IP,
target MAC, target IP) — any operation below 2^16, which covers the specified
request=1 and reply=2 — decoding the encoding yields the tuple again, and
the encoded output is exactly 42 bytes (14-byte Ethernet header plus 28-byte
ARP payload), with no error path.  The theorem holds for every choice of the
Ethernet source and destination addresses. -/
theorem arp_codec_round_trip (op : Nat) (smac : MacAddr) (sip : Ipv4Addr)
    (tmac : MacAddr) (tip : Ipv4Addr) (esrc edst : MacAddr) (hop : op < 65536) :
    decode (encode_arp op smac sip tmac tip esrc edst) =
      some ⟨op, smac, sip, tmac, tip⟩ ∧
    (encode_arp op smac sip tmac tip esrc edst).length = 42 := by
  have h1 : decode (encode_arp op smac sip tmac tip esrc edst) =
      some ⟨op / 256 % 256 * 256 + op % 256, smac, sip, tmac, tip⟩ := rfl
  have h2 : op / 256 % 256 * 256 + op % 256 = op := by omega
  rw [h2] at h1
  exact ⟨h1, rfl⟩

/-- Witness for claim C1 at a concrete request frame. -/
theorem arp_codec_round_trip_witness :
    decode (encode_arp 1 ⟨1, 2, 3, 4, 5, 6⟩ ⟨192, 168, 1, 50⟩
        ⟨7, 8, 9, 10, 11, 12⟩ ⟨192, 168, 1, 1⟩
        ⟨1, 2, 3, 4, 5, 6⟩ ⟨255, 255, 255, 255, 255, 255⟩) =
      some ⟨1, ⟨1, 2, 3, 4, 5, 6⟩, ⟨192, 168, 1, 50⟩,
            ⟨7, 8, 9, 10, 11, 12⟩, ⟨192, 168, 1, 1⟩⟩ ∧
    (encode_arp 1 ⟨1, 2, 3, 4, 5, 6⟩ ⟨192, 168, 1, 50⟩
        ⟨7, 8, 9, 10, 11, 12⟩ ⟨192, 168, 1, 1⟩
        ⟨1, 2, 3, 4, 5, 6⟩ ⟨255, 255, 255, 255, 255, 255⟩).length = 42 :=
  arp_codec_round_trip 1 ⟨1, 2, 3, 4, 5, 6⟩ ⟨192, 168, 1, 50⟩
    ⟨7, 8, 9, 10, 11, 12⟩ ⟨192, 168, 1, 1⟩
    ⟨1, 2, 3, 4, 5, 6⟩ ⟨255, 255, 255, 255, 255, 255⟩ (by decide)

/-! ### Claim C2 -/

/-- Claim C2: decode rejects every byte string shorter than the minimum
ARP-over-Ethernet frame length (42 bytes) and every byte string whose
EtherType, hardware-type, protocol-type or address-length fields differ
from the ARP-over-IPv4-over-Ethernet constants, and returns a ParsedFrame
only when the length and all type-field checks pass. -/
theorem decode_rejects (bs : List Nat) :
    (bs.length < 42 → decode bs = none) ∧
    (arpConstantsOk bs = false → decode bs = none) ∧
    (∀ f, decode bs = some f → 42 ≤ bs.length ∧ arpConstantsOk bs = true) := by
  refine ⟨fun h => by simp [decode, h], fun h => ?_, fun f hf => ?_⟩
  · unfold decode
    split_ifs <;> simp_all
  · unfold decode at hf
    split_ifs at hf with h1 h2
    exact ⟨by omega, h2⟩

/-- Witness for claim C2: the empty frame is rejected for length, and a
42-byte all-zero frame is rejected for its type fields. -/
theorem decode_rejects_witness :
    decode [] = none ∧ decode (List.replicate 42 0) = none :=
  ⟨(decode_rejects []).1 (by decide),
   (decode_rejects (List.replicate 42 0)).2.1 (by decide)⟩

/-! ### Claim C6 -/

theorem dedupReplies_ips_mem (replies : List (String × String)) :
    ∀ (seen : List String) (ip : String),
      ip ∈ (dedupReplies seen replies).map Prod.fst ↔
        ip ∈ replies.map Prod.fst ∧ ip ∉ seen := by
  induction replies with
  | nil => simp [dedupReplies]
  | cons hd rest ih =>
    intro seen ip
    obtain ⟨hip, hmac⟩ := hd
    by_cases h : hip ∈ seen
    · rw [dedupReplies, if_pos (by simpa using h), ih]
      simp only [List.map_cons, List.mem_cons]
      constructor
      · exact fun ⟨h1, h2⟩ => ⟨Or.inr h1, h2⟩
      · rintro ⟨h1 | h1, h2⟩
        · exact absurd (h1 ▸ h) h2
        · exact ⟨h1, h2⟩
    · rw [dedupReplies, if_neg (by simpa using h)]
      simp only [List.map_cons, List.mem_cons, ih, List.mem_cons]
      constructor
      · rintro (rfl | ⟨h1, h2⟩)
        · exact ⟨Or.inl rfl, h⟩
        · exact ⟨Or.inr h1, fun hs => h2 (Or.inr hs)⟩
      · rintro ⟨rfl | h1, h2⟩
        · exact Or.inl rfl
        · by_cases hih : ip = hip
          · exact Or.inl hih
          · exact Or.inr ⟨h1, fun hs => hs.elim hih h2⟩

theorem dedupReplies_ips_nodup (replies : List (String × String)) :
    ∀ seen : List String, ((dedupReplies seen replies).map Prod.fst).Nodup := by
  induction replies with
  | nil => intro seen; simp [dedupReplies]
  | cons hd rest ih =>
    intro seen
    obtain ⟨hip, hmac⟩ := hd
    by_cases h : hip ∈ seen
    · rw [dedupReplies, if_pos (by simpa using h)]
      exact ih seen
    · rw [dedupReplies, if_neg (by simpa using h)]
      simp only [List.map_cons, List.nodup_cons]
      refine ⟨fun hmem => ?_, ih _⟩
      exact ((dedupReplies_ips_mem rest (hip :: seen) hip).mp hmem).2 (List.mem_cons_self _ _)

theorem dedupReplies_first_seen (replies : List (String × String)) :
    ∀ (seen : List String) (p : String × String),
      p ∈ dedupReplies seen replies →
        p.1 ∉ seen ∧ replies.find? (fun q => q.1 == p.1) = some p := by
  induction replies with
  | nil => simp [dedupReplies]
  | cons hd rest ih =>
    intro seen p hp
    obtain ⟨hip, hmac⟩ := hd
    by_cases h : hip ∈ seen
    · rw [dedupReplies, if_pos (by simpa using h)] at hp
      obtain ⟨h1, h2⟩ := ih seen p hp
      have hne : (hip == p.1) = false := by
        simp only [beq_eq_false_iff_ne, ne_eq]
        exact fun he => h1 (he ▸ h)
      refine ⟨h1, ?_⟩
      rw [List.find?]
      simp [hne, h2]
    · rw [dedupReplies, if_neg (by simpa using h)] at hp
      rcases List.mem_cons.mp hp with heq | htl
      · subst heq
        refine ⟨h, ?_⟩
        rw [List.find?]
        simp
      · obtain ⟨h1, h2⟩ := ih (hip :: seen) p htl
        have hne : (hip == p.1) = false := by
          simp only [beq_eq_false_iff_ne, ne_eq]
          exact fun he => h1 (he ▸ List.mem_cons_self _ _)
        refine ⟨fun hs => h1 (List.mem_cons_of_mem _ hs), ?_⟩
        rw [List.find?]
        simp [hne, h2]

/-- Claim C6: for a fixed multiset of ARP replies arriving in the sweep
window, the scan yields exactly one Device per distinct sender IP, carrying
the MAC of the first reply observed for that IP; an empty reply set yields
the empty device list, a valid non-error outcome. -/
theorem scan_one_device_per_ip (hostnameOf vendorOf : String → String)
    (replies : List (String × String)) :
    scanDevices hostnameOf vendorOf [] = [] ∧
    ((scanDevices hostnameOf vendorOf replies).map Device.ip).Nodup ∧
    (∀ ip, ip ∈ (scanDevices hostnameOf vendorOf replies).map Device.ip ↔
       ip ∈ replies.map Prod.fst) ∧
    (∀ d ∈ scanDevices hostnameOf vendorOf replies,
       replies.find? (fun q => q.1 == d.ip) = some (d.ip, d.mac)) := by
  have hips : (scanDevices hostnameOf vendorOf replies).map Device.ip =
      (dedupReplies [] replies).map Prod.fst := by
    simp [scanDevices, List.map_map, Function.comp]
  refine ⟨rfl, ?_, fun ip => ?_, fun d hd => ?_⟩
  · rw [hips]; exact dedupReplies_ips_nodup replies []
  · rw [hips, dedupReplies_ips_mem replies [] ip]
    simp
  · obtain ⟨p, hp, hpd⟩ := List.mem_map.mp hd
    obtain ⟨-, hfind⟩ := dedupReplies_first_seen replies [] p hp
    have h1 : d.ip = p.1 := by rw [← hpd]
    have h2 : d.mac = p.2 := by rw [← hpd]
    rw [h1, h2]
    simpa using hfind

/-- Witness for claim C6: on duplicate replies for 192.168.1.1 the device
kept carries the first-seen MAC. -/
theorem scan_one_device_per_ip_witness :
    List.find? (fun q => q.1 == "192.168.1.1")
      [("192.168.1.1", "aa"), ("192.168.1.1", "bb"), ("192.168.1.50", "cc")] =
      some ("192.168.1.1", "aa") :=
  (scan_one_device_per_ip (fun _ => "") (fun _ => "Unknown")
      [("192.168.1.1", "aa"), ("192.168.1.1", "bb"), ("192.168.1.50", "cc")]).2.2.2
    ⟨"192.168.1.1", "aa", "", "Unknown"⟩ (by decide)

/-! ### Claim C3 -/

theorem hasActiveConflict_false (r : List SpoofingSession) (tipS ifaceS : String)
    (h : hasActiveConflict r tipS ifaceS = false) :
    ∀ s ∈ r, s.is_active = true → ¬(s.target_ip = tipS ∧ s.interface = ifaceS) := by
  intro s hs hact hpair
  simp only [hasActiveConflict, List.any_eq_false] at h
  have hfs := h s hs
  simp [hact, hpair.1, hpair.2] at hfs

theorem applyRegOp_preserves (r : List SpoofingSession) (op : RegOp)
    (h : UniqueActivePairs r) : UniqueActivePairs (applyRegOp r op) := by
  cases op with
  | start s =>
    show UniqueActivePairs (match admitSession r s with
      | .ok r' => r'
      | .error _ => r)
    unfold admitSession
    by_cases hc : hasActiveConflict r s.target_ip s.interface
    · simp only [hc, if_true]
      exact h
    · simp only [hc, Bool.false_eq_true, if_false]
      refine List.Pairwise.cons (fun b hb _ hbact hpair => ?_) h
      exact hasActiveConflict_false r s.target_ip s.interface
        (Bool.not_eq_true _ ▸ hc) b hb hbact ⟨hpair.1.symm, hpair.2.symm⟩
  | stop sid =>
    show UniqueActivePairs (stopSpoofing r sid).1
    unfold stopSpoofing
    by_cases hs : (r.any fun s => s.id == sid && s.is_active) = true
    · simp only [hs, if_true]
      exact List.Pairwise.sublist (List.filter_sublist r) h
    · simp only [hs, if_false]
      exact h

theorem runRegOps_aux (ops : List RegOp) :
    ∀ r : List SpoofingSession, UniqueActivePairs r →
      UniqueActivePairs (ops.foldl applyRegOp r) := by
  induction ops with
  | nil => exact fun r h => h
  | cons op rest ih => exact fun r h => ih (applyRegOp r op) (applyRegOp_preserves r op h)

/-- Claim C3: in every reachable registry state no two active sessions share
a (target IP, interface) pair; and when two admissions for the same pair are
serialized by the atomic check-then-insert, the first succeeds, the second
fails with a conflict error, and the registry holds exactly the winner on
top of the prior state. -/
theorem registry_admission_exclusive (ops : List RegOp) (r r' : List SpoofingSession)
    (s1 s2 : SpoofingSession) :
    UniqueActivePairs (runRegOps ops) ∧
    (admitSession r s1 = .ok r' → s2.target_ip = s1.target_ip →
      s2.interface = s1.interface →
      admitSession r' s2 = .error (.conflict s2.target_ip s2.interface) ∧
      r' = { s1 with is_active := true } :: r) := by
  refine ⟨runRegOps_aux ops [] (List.Pairwise.nil), fun hok htip hiface => ?_⟩
  unfold admitSession at hok
  by_cases hc : hasActiveConflict r s1.target_ip s1.interface
  · simp only [hc, if_true] at hok
    exact absurd hok (by simp)
  · simp only [hc, Bool.false_eq_true, if_false, Except.ok.injEq] at hok
    have hr' : r' = { s1 with is_active := true } :: r := hok.symm
    refine ⟨?_, hr'⟩
    have hconf : hasActiveConflict r' s2.target_ip s2.interface = true := by
      rw [hr']
      simp [hasActiveConflict, htip, hiface]
    unfold admitSession
    simp only [hconf, if_true]

/-- Witness for claim C3: a second admission for the occupied pair
(192.168.1.50, eth-test) is rejected with a conflict. -/
theorem registry_admission_exclusive_witness :
    admitSession [⟨"A", "192.168.1.50", "192.168.1.1", "eth-test", true, 0⟩]
        ⟨"B", "192.168.1.50", "192.168.1.1", "eth-test", false, 0⟩ =
      .error (.conflict "192.168.1.50" "eth-test") ∧
    ([⟨"A", "192.168.1.50", "192.168.1.1", "eth-test", true, 0⟩] :
        List SpoofingSession) =
      { (⟨"A", "192.168.1.50", "192.168.1.1", "eth-test", false, 0⟩ :
          SpoofingSession) with is_active := true } :: [] :=
  (registry_admission_exclusive []
      [] [⟨"A", "192.168.1.50", "192.168.1.1", "eth-test", true, 0⟩]
      ⟨"A", "192.168.1.50", "192.168.1.1", "eth-test", false, 0⟩
      ⟨"B", "192.168.1.50", "192.168.1.1", "eth-test", false, 0⟩).2
    rfl rfl rfl

/-! ### Claim C4 -/

theorem stop_filter_clears (r : List SpoofingSession) (sid : String) :
    ((r.filter fun s => !(s.id == sid)).any fun s => s.id == sid && s.is_active) =
      false := by
  simp only [List.any_eq_false, List.mem_filter, Bool.and_eq_true, Bool.not_eq_true',
    beq_eq_false_iff_ne, ne_eq]
  rintro s ⟨-, hne⟩ ⟨hid, -⟩
  exact hne (by simpa using hid)

/-- Claim C4: stop_spoofing always returns a boolean and no error: true on
the first stop of a live session, false when the id is unknown or already
stopped; stopping the same live id twice returns true then false. -/
theorem stop_true_then_false (r : List SpoofingSession) (sid : String) :
    ((r.any fun s => s.id == sid && s.is_active) = true →
      (stopSpoofing r sid).2 = true ∧
      (stopSpoofing (stopSpoofing r sid).1 sid).2 = false) ∧
    ((r.any fun s => s.id == sid && s.is_active) = false →
      stopSpoofing r sid = (r, false)) := by
  constructor
  · intro h
    constructor
    · simp [stopSpoofing, h]
    · simp [stopSpoofing, h, stop_filter_clears r sid]
  · intro h
    simp [stopSpoofing, h]

/-- Witness for claim C4: stopping live session A returns true, stopping it
again returns false. -/
theorem stop_true_then_false_witness :
    (stopSpoofing [⟨"A", "192.168.1.50", "192.168.1.1", "eth-test", true, 3⟩] "A").2 =
      true ∧
    (stopSpoofing
      (stopSpoofing [⟨"A", "192.168.1.50", "192.168.1.1", "eth-test", true, 3⟩]
        "A").1 "A").2 = false :=
  (stop_true_then_false
      [⟨"A", "192.168.1.50", "192.168.1.1", "eth-test", true, 3⟩] "A").1 (by decide)

/-! ### Claim C5 -/

theorem admitSession_ok (r r' : List SpoofingSession) (s : SpoofingSession)
    (h : admitSession r s = .ok r') : r' = { s with is_active := true } :: r := by
  unfold admitSession at h
  by_cases hc : hasActiveConflict r s.target_ip s.interface
  · simp only [hc, if_true] at h
    exact absurd h (by simp)
  · simp only [hc, Bool.false_eq_true, if_false, Except.ok.injEq] at h
    exact h.symm

theorem startSession_ok (resolveMac : String → Option String)
    (r r' : List SpoofingSession) (sid tip gw iface : String)
    (h : startSession resolveMac r sid tip gw iface = .ok r') :
    ∃ s : SpoofingSession, r' = s :: r ∧ s.id = sid ∧ s.is_active = true := by
  unfold startSession at h
  cases htm : resolveMac tip with
  | none => rw [htm] at h; exact absurd h (by simp)
  | some m1 =>
    rw [htm] at h
    cases hgm : resolveMac gw with
    | none => rw [hgm] at h; exact absurd h (by simp)
    | some m2 =>
      rw [hgm] at h
      exact ⟨_, admitSession_ok _ _ _ h, rfl, rfl⟩

theorem startSpoofAll_registry_mono (resolveMac : String → Option String)
    (uuidOf : Device → String) (gw iface : String) (devices : List Device) :
    ∀ (r : List SpoofingSession) (s : SpoofingSession), s ∈ r →
      s ∈ (startSpoofAll resolveMac uuidOf r devices gw iface).registry := by
  induction devices with
  | nil => exact fun r s hs => hs
  | cons d ds ih =>
    intro r s hs
    rw [startSpoofAll]
    by_cases hgw : (d.ip == gw) = true
    · rw [if_pos hgw]
      exact ih r s hs
    · rw [if_neg hgw]
      cases hst : startSession resolveMac r (uuidOf d) d.ip gw iface with
      | ok r' =>
        obtain ⟨s', hr', -, -⟩ := startSession_ok _ _ _ _ _ _ _ hst
        exact ih r' s (hr' ▸ List.mem_cons_of_mem _ hs)
      | error e =>
        exact ih r s hs

theorem startSpoofAll_append (resolveMac : String → Option String)
    (uuidOf : Device → String) (gw iface : String) (ds1 : List Device) :
    ∀ (ds2 : List Device) (r : List SpoofingSession),
      startSpoofAll resolveMac uuidOf r (ds1 ++ ds2) gw iface =
        ⟨(startSpoofAll resolveMac uuidOf
            (startSpoofAll resolveMac uuidOf r ds1 gw iface).registry
            ds2 gw iface).registry,
         (startSpoofAll resolveMac uuidOf r ds1 gw iface).sessionIds ++
           (startSpoofAll resolveMac uuidOf
             (startSpoofAll resolveMac uuidOf r ds1 gw iface).registry
             ds2 gw iface).sessionIds,
         (startSpoofAll resolveMac uuidOf r ds1 gw iface).failures ++
           (startSpoofAll resolveMac uuidOf
             (startSpoofAll resolveMac uuidOf r ds1 gw iface).registry
             ds2 gw iface).failures⟩ := by
  induction ds1 with
  | nil => intro ds2 r; simp [startSpoofAll]
  | cons d ds ih =>
    intro ds2 r
    rw [List.cons_append, startSpoofAll, startSpoofAll]
    by_cases hgw : (d.ip == gw) = true
    · rw [if_pos hgw, if_pos hgw]
      exact ih ds2 r
    · rw [if_neg hgw, if_neg hgw]
      cases hst : startSession resolveMac r (uuidOf d) d.ip gw iface with
      | ok r' => simp [ih ds2 r']
      | error e => simp [ih ds2 r]

theorem startSpoofAll_ids_active (resolveMac : String → Option String)
    (uuidOf : Device → String) (gw iface : String) (devices : List Device) :
    ∀ (r : List SpoofingSession) (sid : String),
      sid ∈ (startSpoofAll resolveMac uuidOf r devices gw iface).sessionIds →
      ∃ s : SpoofingSession,
        s ∈ (startSpoofAll resolveMac uuidOf r devices gw iface).registry ∧
        s.id = sid ∧ s.is_active = true := by
  induction devices with
  | nil => intro r sid h; exact absurd h (by simp [startSpoofAll])
  | cons d ds ih =>
    intro r sid h
    rw [startSpoofAll] at h ⊢
    by_cases hgw : (d.ip == gw) = true
    · rw [if_pos hgw] at h ⊢
      exact ih r sid h
    · rw [if_neg hgw] at h ⊢
      cases hst : startSession resolveMac r (uuidOf d) d.ip gw iface with
      | ok r' =>
        rw [hst] at h
        have h' : sid ∈ uuidOf d ::
            (startSpoofAll resolveMac uuidOf r' ds gw iface).sessionIds := h
        rcases List.mem_cons.mp h' with rfl | htl
        · obtain ⟨s', hr', hid, hact⟩ := startSession_ok _ _ _ _ _ _ _ hst
          refine ⟨s', ?_, hid, hact⟩
          exact startSpoofAll_registry_mono resolveMac uuidOf gw iface ds r' s'
            (hr' ▸ List.mem_cons_self _ _)
        · exact ih r' sid htl
      | error e =>
        rw [hst] at h
        exact ih r sid h

/-- Claim C5: the batch start never fails atomically — a device equal to the
gateway is skipped, a device whose start attempt fails changes neither the
identifiers returned for the other devices nor the final registry, its
failure is reported in the per-device failure list rather than thrown, and
every returned identifier belongs to a session that reached Active in the
final registry. -/
theorem spoof_all_partial_success (resolveMac : String → Option String)
    (uuidOf : Device → String) (r : List SpoofingSession) (gw iface : String)
    (ds1 ds2 : List Device) (d : Device) (e : StartError) :
    ((d.ip == gw) = true →
      startSpoofAll resolveMac uuidOf r (d :: ds2) gw iface =
        startSpoofAll resolveMac uuidOf r ds2 gw iface) ∧
    ((d.ip == gw) = false →
      startSession resolveMac
          (startSpoofAll resolveMac uuidOf r ds1 gw iface).registry
          (uuidOf d) d.ip gw iface = .error e →
      (startSpoofAll resolveMac uuidOf r (ds1 ++ d :: ds2) gw iface).sessionIds =
        (startSpoofAll resolveMac uuidOf r (ds1 ++ ds2) gw iface).sessionIds ∧
      (startSpoofAll resolveMac uuidOf r (ds1 ++ d :: ds2) gw iface).registry =
        (startSpoofAll resolveMac uuidOf r (ds1 ++ ds2) gw iface).registry ∧
      (d.ip, e) ∈ (startSpoofAll resolveMac uuidOf r (ds1 ++ d :: ds2) gw iface).failures) ∧
    (∀ sid ∈ (startSpoofAll resolveMac uuidOf r ds1 gw iface).sessionIds,
      ∃ s : SpoofingSession,
        s ∈ (startSpoofAll resolveMac uuidOf r ds1 gw iface).registry ∧
        s.id = sid ∧ s.is_active = true) := by
  refine ⟨fun hgw => ?_, fun hgw hst => ?_, startSpoofAll_ids_active _ _ _ _ _ _⟩
  · rw [startSpoofAll, if_pos hgw]
  · rw [startSpoofAll_append, startSpoofAll_append]
    rw [startSpoofAll, if_neg (by simp [hgw]), hst]
    refine ⟨by simp, by simp, ?_⟩
    simp

/-- Witness for claim C5: with device 192.168.1.77 unresolvable, the batch
over devices 192.168.1.50, 192.168.1.77, 192.168.1.60 yields the same
session identifiers as the batch without the failing device, and reports
the failure separately. -/
theorem spoof_all_partial_success_witness :
    (startSpoofAll
        (fun ip => if ip == "192.168.1.77" then none else some "aa:bb:cc:dd:ee:ff")
        Device.ip []
        [⟨"192.168.1.50", "", "", ""⟩, ⟨"192.168.1.77", "", "", ""⟩,
         ⟨"192.168.1.60", "", "", ""⟩]
        "192.168.1.1" "eth-test").sessionIds =
      (startSpoofAll
        (fun ip => if ip == "192.168.1.77" then none else some "aa:bb:cc:dd:ee:ff")
        Device.ip []
        [⟨"192.168.1.50", "", "", ""⟩, ⟨"192.168.1.60", "", "", ""⟩]
        "192.168.1.1" "eth-test").sessionIds ∧
    (startSpoofAll
        (fun ip => if ip == "192.168.1.77" then none else some "aa:bb:cc:dd:ee:ff")
        Device.ip []
        [⟨"192.168.1.50", "", "", ""⟩, ⟨"192.168.1.77", "", "", ""⟩,
         ⟨"192.168.1.60", "", "", ""⟩]
        "192.168.1.1" "eth-test").registry =
      (startSpoofAll
        (fun ip => if ip == "192.168.1.77" then none else some "aa:bb:cc:dd:ee:ff")
        Device.ip []
        [⟨"192.168.1.50", "", "", ""⟩, ⟨"192.168.1.60", "", "", ""⟩]
        "192.168.1.1" "eth-test").registry ∧
    ("192.168.1.77", StartError.resolutionFailed "192.168.1.77") ∈
      (startSpoofAll
        (fun ip => if ip == "192.168.1.77" then none else some "aa:bb:cc:dd:ee:ff")
        Device.ip []
        [⟨"192.168.1.50", "", "", ""⟩, ⟨"192.168.1.77", "", "", ""⟩,
         ⟨"192.168.1.60", "", "", ""⟩]
        "192.168.1.1" "eth-test").failures := by
  have h := (spoof_all_partial_success
      (fun ip => if ip == "192.168.1.77" then none else some "aa:bb:cc:dd:ee:ff")
      Device.ip [] "192.168.1.1" "eth-test"
      [⟨"192.168.1.50", "", "", ""⟩] [⟨"192.168.1.60", "", "", ""⟩]
      ⟨"192.168.1.77", "", "", ""⟩
      (StartError.resolutionFailed "192.168.1.77")).2.1 (by decide) rfl
  exact h

/-! ### Claim C7 -/

/-- Claim C7 counterexample: the claimed per-marker biconditional fails on a
string containing two markers — it contains SPOOFING_ERROR, so the claim
requires type SPOOFING, but the parser checks NETWORK_ERROR first and
yields NETWORK. -/
theorem parse_error_type_counterexample :
    jsIncludes "SPOOFING_ERROR NETWORK_ERROR" "SPOOFING_ERROR" = true ∧
    (parseBackendError "SPOOFING_ERROR NETWORK_ERROR" 0).type = ErrorType.NETWORK ∧
    ErrorType.NETWORK ≠ ErrorType.SPOOFING := by
  decide

theorem scanNetwork_rethrows_normalized (now : Nat)
    (backend : Except JSValue (List Device)) (e : AppError)
    (he : scanNetwork now backend = .error e) : ∃ v, e = handleError now v := by
  cases backend with
  | ok ds => exact absurd he (by simp [scanNetwork])
  | error v =>
    refine ⟨v, ?_⟩
    have h2 : Except.error (handleError now v) = Except.error e := he
    injection h2 with h3
    exact h3.symm

/-- Claim C7 (amended): every error crossing the command boundary carries a
machine-readable kind and a message; the parser assigns the kind of the
first marker present in the order NETWORK_ERROR, INTERFACE_ERROR,
SPOOFING_ERROR, SYSTEM_ERROR, PERMISSION_ERROR, CONFIG_ERROR — so each
non-UNKNOWN kind is produced exactly when its marker is present and no
earlier marker is — UNKNOWN exactly when no marker is present, and the
scan_network API wrapper rethrows only handleError-normalized AppError
values. -/
theorem parse_error_type_total (s : String) (now : Nat) :
    ((parseBackendError s now).type = ErrorType.NETWORK ↔
      jsIncludes s "NETWORK_ERROR" = true) ∧
    ((parseBackendError s now).type = ErrorType.INTERFACE ↔
      jsIncludes s "INTERFACE_ERROR" = true ∧
      jsIncludes s "NETWORK_ERROR" = false) ∧
    ((parseBackendError s now).type = ErrorType.SPOOFING ↔
      jsIncludes s "SPOOFING_ERROR" = true ∧
      jsIncludes s "NETWORK_ERROR" = false ∧
      jsIncludes s "INTERFACE_ERROR" = false) ∧
    ((parseBackendError s now).type = ErrorType.SYSTEM ↔
      jsIncludes s "SYSTEM_ERROR" = true ∧
      jsIncludes s "NETWORK_ERROR" = false ∧
      jsIncludes s "INTERFACE_ERROR" = false ∧
      jsIncludes s "SPOOFING_ERROR" = false) ∧
    ((parseBackendError s now).type = ErrorType.PERMISSION ↔
      jsIncludes s "PERMISSION_ERROR" = true ∧
      jsIncludes s "NETWORK_ERROR" = false ∧
      jsIncludes s "INTERFACE_ERROR" = false ∧
      jsIncludes s "SPOOFING_ERROR" = false ∧
      jsIncludes s "SYSTEM_ERROR" = false) ∧
    ((parseBackendError s now).type = ErrorType.CONFIGURATION ↔
      jsIncludes s "CONFIG_ERROR" = true ∧
      jsIncludes s "NETWORK_ERROR" = false ∧
      jsIncludes s "INTERFACE_ERROR" = false ∧
      jsIncludes s "SPOOFING_ERROR" = false ∧
      jsIncludes s "SYSTEM_ERROR" = false ∧
      jsIncludes s "PERMISSION_ERROR" = false) ∧
    ((parseBackendError s now).type = ErrorType.UNKNOWN ↔
      jsIncludes s "NETWORK_ERROR" = false ∧
      jsIncludes s "INTERFACE_ERROR" = false ∧
      jsIncludes s "SPOOFING_ERROR" = false ∧
      jsIncludes s "SYSTEM_ERROR" = false ∧
      jsIncludes s "PERMISSION_ERROR" = false ∧
      jsIncludes s "CONFIG_ERROR" = false) ∧
    (∀ (backend : Except JSValue (List Device)) (e : AppError),
      scanNetwork now backend = .error e → ∃ v, e = handleError now v) := by
  have ht : (parseBackendError s now).type = detectErrorType s := rfl
  refine ⟨?_, ?_, ?_, ?_, ?_, ?_, ?_, scanNetwork_rethrows_normalized now⟩ <;>
    rw [ht] <;> unfold detectErrorType <;>
    cases h1 : jsIncludes s "NETWORK_ERROR" <;>
    cases h2 : jsIncludes s "INTERFACE_ERROR" <;>
    cases h3 : jsIncludes s "SPOOFING_ERROR" <;>
    cases h4 : jsIncludes s "SYSTEM_ERROR" <;>
    cases h5 : jsIncludes s "PERMISSION_ERROR" <;>
    cases h6 : jsIncludes s "CONFIG_ERROR" <;>
    simp_all

/-- Witness for the amended claim C7 at a configuration-error string. -/
theorem parse_error_type_total_witness :
    (parseBackendError "[CONFIG_ERROR] Invalid IP address: abc" 0).type =
      ErrorType.CONFIGURATION :=
  ((parse_error_type_total "[CONFIG_ERROR] Invalid IP address: abc" 0).2.2.2.2.2.1).mpr
    (by decide)

/-! ### Claim C8 -/

/-- Claim C8: a raw-access-denied failure carrying the PERMISSION_ERROR
marker is classified PERMISSION, a missing/down-interface failure carrying
the INTERFACE_ERROR marker is classified INTERFACE, and the two kinds
differ, so a caller can branch on the kind to prompt for elevated privilege
rather than retry. -/
theorem permission_error_distinguished (s1 s2 : String) (now1 now2 : Nat)
    (h1 : jsIncludes s1 "PERMISSION_ERROR" = true)
    (h2 : jsIncludes s1 "NETWORK_ERROR" = false)
    (h3 : jsIncludes s1 "INTERFACE_ERROR" = false)
    (h4 : jsIncludes s1 "SPOOFING_ERROR" = false)
    (h5 : jsIncludes s1 "SYSTEM_ERROR" = false)
    (h6 : jsIncludes s2 "INTERFACE_ERROR" = true)
    (h7 : jsIncludes s2 "NETWORK_ERROR" = false) :
    (parseBackendError s1 now1).type = ErrorType.PERMISSION ∧
    (parseBackendError s2 now2).type = ErrorType.INTERFACE ∧
    (parseBackendError s1 now1).type ≠ (parseBackendError s2 now2).type := by
  have e1 : (parseBackendError s1 now1).type = ErrorType.PERMISSION := by
    show detectErrorType s1 = _
    unfold detectErrorType
    simp [h1, h2, h3, h4, h5]
  have e2 : (parseBackendError s2 now2).type = ErrorType.INTERFACE := by
    show detectErrorType s2 = _
    unfold detectErrorType
    simp [h6, h7]
  refine ⟨e1, e2, ?_⟩
  rw [e1, e2]
  decide

/-- Witness for claim C8 at concrete backend error strings. -/
theorem permission_error_distinguished_witness :
    (parseBackendError "PERMISSION_ERROR: Access is denied" 5).type =
      ErrorType.PERMISSION ∧
    (parseBackendError "INTERFACE_ERROR: Interface is down" 7).type =
      ErrorType.INTERFACE ∧
    (parseBackendError "PERMISSION_ERROR: Access is denied" 5).type ≠
      (parseBackendError "INTERFACE_ERROR: Interface is down" 7).type :=
  permission_error_distinguished
    "PERMISSION_ERROR: Access is denied" "INTERFACE_ERROR: Interface is down" 5 7
    (by decide) (by decide) (by decide) (by decide) (by decide) (by decide) (by decide)

/-! ### Claim C9 -/

/-- Claim C9: handleError is total — over every modelled JavaScript input
shape it yields an AppError with a kind and a message, being a total
function into AppError — and idempotent: handling its own output again, at
any later timestamp, returns that output unchanged. -/
theorem handleError_idempotent (now later : Nat) (v : JSValue) :
    handleError later (.vErr (handleError now v)) = handleError now v := rfl

/-! ### Claim C10 -/

/-- Claim C10: checkPermissions never throws — it is a total boolean
function.  It returns true when the getInterfaces probe succeeds, false
precisely when the probe fails with an error whose normalized message,
lower-cased, contains a permission indicator (permission, access denied, or
administrator), and true on every other failure. -/
theorem check_permissions_classification (now : Nat)
    (backend : Except JSValue (List CustomNetworkInterface)) :
    (∀ l, backend = .ok l → checkPermissions now backend = true) ∧
    (checkPermissions now backend = false ↔
      ∃ v, backend = .error v ∧
        permissionIndicators ((handleError now v).message) = true) := by
  cases backend with
  | ok l =>
    refine ⟨fun _ _ => rfl, ?_, ?_⟩
    · intro h
      exact absurd h (by simp [checkPermissions, getInterfaces])
    · rintro ⟨v, hv, -⟩
      exact absurd hv (by simp)
  | error v =>
    refine ⟨fun l hl => absurd hl (by simp), ?_⟩
    have hval : checkPermissions now (.error v) =
        if permissionIndicators ((handleError now v).message) then false else true := rfl
    rw [hval]
    by_cases hp : permissionIndicators ((handleError now v).message) = true
    · simp only [hp, if_true]
      exact ⟨fun _ => ⟨v, rfl, hp⟩, fun _ => trivial⟩
    · simp only [hp, if_false]
      constructor
      · intro h
        exact absurd h (by simp)
      · rintro ⟨v', hv', hp'⟩
        cases hv'
        exact absurd hp' hp

/-- Witness for claim C10: a permission-denied probe failure yields false. -/
theorem check_permissions_classification_witness :
    checkPermissions 0 (Except.error (JSValue.vStr
      "PERMISSION_ERROR: Access denied. Please run as administrator")) = false :=
  (check_permissions_classification 0
      (Except.error (JSValue.vStr
        "PERMISSION_ERROR: Access denied. Please run as administrator"))).2.mpr
    ⟨JSValue.vStr "PERMISSION_ERROR: Access denied. Please run as administrator",
     rfl, by decide⟩

end KanCut
